import Mathlib

/-
Verification development for the remote_con repository.

The repository drives the text console of another process on the same
machine: a background worker thread (src/worker/mod.rs, worker_main)
polls the console of an attached pid, while the UI (src/ui/mod.rs)
sends commands to the worker over a channel and also performs its own
attach/write/detach sequences for text sends.  The low-level console
primitives live in src/console/attach.rs, read.rs and write.rs.

The embedding below translates those functions into pure Lean
definitions.  Effects on the Windows console are represented by an
explicit trace of capability calls (OsCall); fallible OS calls are
represented by result oracles of type Except String _ supplied as
arguments.
-/

namespace RemoteCon

/-- The fields of a KEY_EVENT input record that src/console/write.rs sets:
bKeyDown, dwControlKeyState, wRepeatCount, wVirtualKeyCode,
wVirtualScanCode and uChar.UnicodeChar. -/
structure KeyEventRec where
  keyDown : Bool
  controlKeyState : Nat
  repeatCount : Nat
  virtualKeyCode : Nat
  virtualScanCode : Nat
  unicodeChar : Nat
deriving DecidableEq, Repr

/-- A capability-level (OS console) invocation as issued by the code:
`FreeConsole`, `AttachConsole(pid)`, reading the screen buffer via
`CONOUT$` (`readOutput n` reads the last `n` lines), or writing
key-event records via `CONIN$`. -/
inductive OsCall where
  | freeConsole
  | attachConsole (pid : Nat)
  | readOutput (n : Nat)
  | writeInput (records : List KeyEventRec)
deriving DecidableEq, Repr

/-! ### src/console/attach.rs -/

/-- `attach_to_console(pid)` from src/console/attach.rs: unconditionally
calls `FreeConsole()` (result ignored), then `AttachConsole(pid)`,
mapping an OS error `e` to the message
`"Failed to attach to console PID {pid}: {e}"`.  `raw pid` is the
result the OS gives for `AttachConsole(pid)`; the second component is
the trace of OS calls performed. -/
def attach_to_console (raw : Nat → Except String Unit) (pid : Nat) :
    Except String Unit × List OsCall :=
  match raw pid with
  | Except.ok _ =>
      (Except.ok (), [OsCall.freeConsole, OsCall.attachConsole pid])
  | Except.error e =>
      (Except.error ("Failed to attach to console PID " ++ toString pid ++ ": " ++ e),
       [OsCall.freeConsole, OsCall.attachConsole pid])

/-- `detach_from_console()` from src/console/attach.rs: one
`FreeConsole()` call (the trace it contributes). -/
def detach_from_console : List OsCall := [OsCall.freeConsole]

/-- Modelled from the spec: the Console Capability's process-wide
binding, which the source manipulates only through the Windows calls
`FreeConsole` / `AttachConsole` (their OS semantics is outside src/).
Per the spec's capability contract, the calling process is bound to at
most one console: `attach(pid)` binds `pid` on success, and `detach`
(`FreeConsole`) releases the current binding.  `binding_after raw b t`
is the binding after executing trace `t` from prior binding `b`, where
`raw pid` says whether `AttachConsole(pid)` succeeds. -/
def binding_after (raw : Nat → Except String Unit) :
    Option Nat → List OsCall → Option Nat
  | b, [] => b
  | _, OsCall.freeConsole :: rest => binding_after raw none rest
  | b, OsCall.attachConsole pid :: rest =>
      binding_after raw
        (match raw pid with
         | Except.ok _ => some pid
         | Except.error _ => b) rest
  | b, OsCall.readOutput _ :: rest => binding_after raw b rest
  | b, OsCall.writeInput _ :: rest => binding_after raw b rest

/-- The call trace of `attach_to_console` is always FreeConsole followed
by AttachConsole, whatever the attach result. -/
theorem attach_to_console_calls (raw : Nat → Except String Unit) (pid : Nat) :
    (attach_to_console raw pid).2 = [OsCall.freeConsole, OsCall.attachConsole pid] := by
  cases h : raw pid <;> simp [attach_to_console, h]

/-! ### src/console/write.rs -/

/-- `create_key_event(ch, key_down)` from src/console/write.rs: a plain
character key event; `uChar.UnicodeChar = ch as u16` (truncation to 16
bits), no virtual key code, repeat count 1. -/
def create_key_event (ch : Char) (key_down : Bool) : KeyEventRec :=
  ⟨key_down, 0, 1, 0, 0, ch.toNat % 65536⟩

/-- `create_ctrl_key_event(vk_code, key_down, ctrl)` from
src/console/write.rs: virtual-key event with
`dwControlKeyState = LEFT_CTRL_PRESSED` (= 8) when `ctrl` is set and a
NUL `uChar`. -/
def create_ctrl_key_event (vk_code : Nat) (key_down : Bool) (ctrl : Bool) : KeyEventRec :=
  ⟨key_down, if ctrl then 8 else 0, 1, vk_code, 0, 0⟩

/-- `create_control_char_event(code, key_down)` from
src/console/write.rs: uses `code` both as virtual key code and as the
Unicode character. -/
def create_control_char_event (code : Nat) (key_down : Bool) : KeyEventRec :=
  ⟨key_down, 0, 1, code, 0, code⟩

/-- The loop in `send_command` (src/console/write.rs:34-39): for each
character, push a key-down then a key-up record. -/
def build_input_records : List Char → List KeyEventRec
  | [] => []
  | ch :: rest =>
      create_key_event ch true :: create_key_event ch false :: build_input_records rest

/-- The full record list `send_command(command)` writes with one
`WriteConsoleInputW` call: down/up per character, then a key-down and
key-up for carriage return (src/console/write.rs:32-43). -/
def send_command_records (command : String) : List KeyEventRec :=
  build_input_records command.data ++
    [create_key_event '\r' true, create_key_event '\r' false]

/-- The two records `send_ctrl_c` writes (src/console/write.rs:79-82):
Ctrl+C down then up, with the virtual key code of C (0x43). -/
def send_ctrl_c_records : List KeyEventRec :=
  [create_ctrl_key_event 0x43 true true, create_ctrl_key_event 0x43 false true]

theorem build_input_records_length (l : List Char) :
    (build_input_records l).length = 2 * l.length := by
  induction l with
  | nil => rfl
  | cons ch rest ih =>
      simp only [build_input_records, List.length_cons, ih]
      omega

theorem build_input_records_get (l : List Char) :
    ∀ (i : Nat) (ch : Char), l.get? i = some ch →
      (build_input_records l).get? (2 * i) = some (create_key_event ch true) ∧
      (build_input_records l).get? (2 * i + 1) = some (create_key_event ch false) := by
  induction l with
  | nil => intro i ch h; simp at h
  | cons c rest ih =>
      intro i ch h
      cases i with
      | zero =>
          simp only [List.get?] at h
          cases h
          simp [build_input_records]
      | succ j =>
          simp only [List.get?] at h
          have h2 : 2 * (j + 1) = 2 * j + 1 + 1 := by omega
          rw [h2]
          simpa [build_input_records, List.get?] using ih j ch h

/-! ### src/console/read.rs -/

/-- The console screen buffer as `read_console_lines` sees it:
`dwSize.X` (width), `dwCursorPosition.Y` (cursor row) and, for each
row, its `width` cells as read by `ReadConsoleOutputCharacterW`
(UTF-16 cells decoded to characters). -/
structure ScreenBuffer where
  width : Nat
  cursorY : Nat
  row : Nat → List Char

/-- Trailing `'\0'` cells removed, as by `trim_end_matches('\0')` in
src/console/read.rs:82. -/
def trim_trailing_nulls (cs : List Char) : List Char :=
  (cs.reverse.dropWhile (fun c => c == Char.ofNat 0)).reverse

/-- Trailing whitespace removed, as by `trim_end()` in
src/console/read.rs:83. -/
def trim_trailing_ws (cs : List Char) : List Char :=
  (cs.reverse.dropWhile Char.isWhitespace).reverse

/-- `read_line(conout, y, width)` from src/console/read.rs:64-87: the
`width` cells of row `y`, with trailing NULs then trailing whitespace
trimmed. -/
def read_line (screen : ScreenBuffer) (y : Nat) : List Char :=
  trim_trailing_ws (trim_trailing_nulls (screen.row y))

/-- `read_console_lines(num_lines)` from src/console/read.rs:14-61
(success path): `start_y = if cursor_y >= num_lines { cursor_y -
num_lines } else { 0 }`, then read rows `start_y..=cursor_y` in order,
oldest first. -/
def read_console_lines (screen : ScreenBuffer) (num_lines : Nat) : List (List Char) :=
  let cursor_y := screen.cursorY
  let start_y := if cursor_y ≥ num_lines then cursor_y - num_lines else 0
  let lines_to_read := cursor_y - start_y + 1
  (List.range lines_to_read).map (fun i => read_line screen (start_y + i))

/-! ### src/worker/mod.rs -/

/-- `UiMessage` from src/worker/mod.rs: commands the UI sends to the
worker.  Note there is no text-send or control-send variant: text and
control sends do not go through the worker queue. -/
inductive UiMessage where
  | attach (pid : Nat)
  | detach
  | setInterval (d : Nat)
  | setLines (n : Nat)
  | stop
deriving DecidableEq, Repr

/-- `WorkerMessage` from src/worker/mod.rs: events the worker sends to
the UI.  The `Instant` timestamp carried by `Output` is real time and
is omitted. -/
inductive WorkerMessage where
  | output (lines : List String)
  | error (msg : String)
  | status (msg : String)
  | disconnected
deriving DecidableEq, Repr

/-- The mutable locals of `worker_main` (src/worker/mod.rs:97-100):
`current_pid`, `interval` (milliseconds), `lines`, and `last_output`
(the last emitted snapshot, stored joined with `"\n"`). -/
structure WorkerState where
  current_pid : Option Nat
  interval : Nat
  lines : Nat
  last_output : Option String
deriving DecidableEq, Repr

/-- What one `ui_rx.try_recv()` can yield: a message, `Err(Empty)`, or
`Err(Disconnected)` (every sender, i.e. the `ConsoleWorker` handle,
has been dropped).  The code's `Err(_) => {}` arm does not distinguish
the two error cases. -/
inductive RecvResult where
  | msg (m : UiMessage)
  | empty
  | disconnected
deriving DecidableEq, Repr

/-- Result of the command phase of one worker iteration: the new
state, the `WorkerMessage`s sent, the OS calls performed, and whether
the loop `break`s. -/
structure CmdOut where
  state : WorkerState
  events : List WorkerMessage
  calls : List OsCall
  exit : Bool
deriving DecidableEq, Repr

/-- Result of the poll phase of one worker iteration. -/
structure PollOut where
  state : WorkerState
  events : List WorkerMessage
  calls : List OsCall
deriving DecidableEq, Repr

/-- `output_lines.join("\n")` (src/worker/mod.rs:160). -/
def joined (output_lines : List String) : String :=
  String.intercalate "\n" output_lines

/-- The change test of src/worker/mod.rs:163:
`last_output.as_ref() != Some(&output)` where `output` is the newly
read lines joined with `"\n"`. -/
def output_changed (last_output : Option String) (output_lines : List String) : Bool :=
  decide (last_output ≠ some (joined output_lines))

/-- The change detector as a pure function of the two line sequences:
between two successful polls the previous snapshot is stored as its
join, so a new read counts as changed exactly when the joined strings
differ. -/
def lines_diff (prev cur : List String) : Bool :=
  decide (joined prev ≠ joined cur)

/-- The differencer as the spec words it: changed exactly when the two
sequences differ element-wise (different length or any differing
element). -/
def spec_diff (prev cur : List String) : Bool :=
  decide (prev ≠ cur)

/-- The `match ui_rx.try_recv()` block of `worker_main`
(src/worker/mod.rs:104-145), handling the result of one non-blocking
receive. -/
def handle_message (raw : Nat → Except String Unit) (st : WorkerState)
    (r : RecvResult) : CmdOut :=
  match r with
  | RecvResult.msg (UiMessage.attach pid) =>
      let pre : List OsCall × WorkerState :=
        if st.current_pid.isSome then
          (detach_from_console, { st with current_pid := none })
        else ([], st)
      match attach_to_console raw pid with
      | (Except.ok _, calls) =>
          ⟨{ pre.2 with current_pid := some pid, last_output := none },
           [WorkerMessage.status ("Attached to PID " ++ toString pid)],
           pre.1 ++ calls, false⟩
      | (Except.error e, calls) =>
          ⟨pre.2, [WorkerMessage.error ("Failed to attach: " ++ e)],
           pre.1 ++ calls, false⟩
  | RecvResult.msg UiMessage.detach =>
      if st.current_pid.isSome then
        ⟨{ st with current_pid := none, last_output := none },
         [WorkerMessage.status "Detached"], detach_from_console, false⟩
      else ⟨st, [], [], false⟩
  | RecvResult.msg (UiMessage.setInterval d) =>
      ⟨{ st with interval := d }, [], [], false⟩
  | RecvResult.msg (UiMessage.setLines n) =>
      ⟨{ st with lines := n }, [], [], false⟩
  | RecvResult.msg UiMessage.stop =>
      ⟨st, [], if st.current_pid.isSome then detach_from_console else [], true⟩
  | RecvResult.empty => ⟨st, [], [], false⟩
  | RecvResult.disconnected => ⟨st, [], [], false⟩

/-- The poll block of `worker_main` (src/worker/mod.rs:147-179).  If
attached: re-attach for this operation (on failure send `Disconnected`,
clear `current_pid` and `last_output`, and `continue` — no read, no
detach); on success read the console (`readRes` is the result
`read_console_lines(lines)` returns), send `Output` only if the joined
output changed, send a `"Read error: ..."` `Error` on a failed read,
then detach. -/
def poll_step (raw : Nat → Except String Unit)
    (readRes : Except String (List String)) (st : WorkerState) : PollOut :=
  match st.current_pid with
  | none => ⟨st, [], []⟩
  | some pid =>
      match attach_to_console raw pid with
      | (Except.error _, calls) =>
          ⟨{ st with current_pid := none, last_output := none },
           [WorkerMessage.disconnected], calls⟩
      | (Except.ok _, calls) =>
          match readRes with
          | Except.ok output_lines =>
              if output_changed st.last_output output_lines then
                ⟨{ st with last_output := some (joined output_lines) },
                 [WorkerMessage.output output_lines],
                 calls ++ [OsCall.readOutput st.lines] ++ detach_from_console⟩
              else
                ⟨st, [], calls ++ [OsCall.readOutput st.lines] ++ detach_from_console⟩
          | Except.error e =>
              ⟨st, [WorkerMessage.error ("Read error: " ++ e)],
               calls ++ [OsCall.readOutput st.lines] ++ detach_from_console⟩

/-- Result of one full iteration of the `loop` in `worker_main`:
remaining queue, final state, events, OS calls, and whether the loop
exited. -/
structure IterOut where
  queue : List UiMessage
  state : WorkerState
  events : List WorkerMessage
  calls : List OsCall
  exit : Bool
deriving DecidableEq, Repr

/-- One iteration of the `loop` in `worker_main`
(src/worker/mod.rs:102-183), with the command channel modelled as the
list of currently queued messages: a single `try_recv` (the head of
the queue, or `Empty`), then — unless the loop broke — the poll block.
The trailing `thread::sleep(interval)` has no modelled effect. -/
def worker_iteration (raw : Nat → Except String Unit)
    (readRes : Except String (List String))
    (queue : List UiMessage) (st : WorkerState) : IterOut :=
  let r := match queue with
           | [] => RecvResult.empty
           | m :: _ => RecvResult.msg m
  let c := handle_message raw st r
  if c.exit then ⟨queue.tail, c.state, c.events, c.calls, true⟩
  else
    let p := poll_step raw readRes c.state
    ⟨queue.tail, p.state, c.events ++ p.events, c.calls ++ p.calls, false⟩

/-! ### src/ui/mod.rs (capability use on the UI thread) -/

/-- Rust's `str::trim`: leading and trailing whitespace removed
(ASCII whitespace in this model). -/
def rust_trim (s : String) : String :=
  ⟨trim_trailing_ws (s.data.dropWhile Char.isWhitespace)⟩

/-- The fields of `RemoteConApp` that its console-send methods touch:
`attached_pid`, the text input, and `last_error`. -/
structure AppSendState where
  attached_pid : Option Nat
  command_input : String
  last_error : Option String
deriving DecidableEq, Repr

/-- `RemoteConApp::send_command` (src/ui/mod.rs:132-163), which runs on
the UI (egui) thread, not on the worker thread: if not attached, set
`last_error` and return; if the trimmed input is empty, return;
otherwise call `attach_to_console(pid)`, `send_command(trimmed)` (one
`WriteConsoleInputW` of `send_command_records`), then
`detach_from_console()`.  `w` is the result of the write. -/
def rc_send_command (raw : Nat → Except String Unit) (w : Except String Unit)
    (st : AppSendState) : AppSendState × List OsCall :=
  match st.attached_pid with
  | none => ({ st with last_error := some "Not attached to any console" }, [])
  | some pid =>
      let command := rust_trim st.command_input
      if command.data.isEmpty then (st, [])
      else
        match attach_to_console raw pid with
        | (Except.ok _, calls) =>
            let st2 :=
              match w with
              | Except.ok _ => { st with command_input := "", last_error := none }
              | Except.error e =>
                  { st with last_error := some ("Failed to send command: " ++ e) }
            (st2, calls ++ [OsCall.writeInput (send_command_records command)]
                    ++ detach_from_console)
        | (Except.error e, calls) =>
            ({ st with last_error := some ("Failed to attach for command: " ++ e) },
             calls)

/-- `RemoteConApp::send_ctrl_c` (src/ui/mod.rs:199-224), also on the UI
thread: if not attached, set `last_error` and return; otherwise attach,
write the Ctrl+C records, detach. -/
def rc_send_ctrl_c (raw : Nat → Except String Unit) (w : Except String Unit)
    (st : AppSendState) : AppSendState × List OsCall :=
  match st.attached_pid with
  | none => ({ st with last_error := some "Not attached to any console" }, [])
  | some pid =>
      match attach_to_console raw pid with
      | (Except.ok _, calls) =>
          let st2 :=
            match w with
            | Except.ok _ => { st with last_error := none }
            | Except.error e =>
                { st with last_error := some ("Failed to send Ctrl+C: " ++ e) }
          (st2, calls ++ [OsCall.writeInput send_ctrl_c_records]
                  ++ detach_from_console)
      | (Except.error e, calls) =>
          ({ st with last_error := some ("Failed to attach for Ctrl+C: " ++ e) },
           calls)

/-! ### Claim theorems -/

/-- C1: the claim that every Console Capability invocation is performed
exclusively by the session-manager worker fails on the code: with a
pid attached, `RemoteConApp::send_command` — which runs on the UI
thread, concurrently with the worker's poll loop — itself performs the
capability sequence FreeConsole, AttachConsole, WriteConsoleInput,
FreeConsole. -/
theorem ui_thread_capability_calls :
    (rc_send_command (fun _ => Except.ok ()) (Except.ok ())
        ⟨some 4321, "dir", none⟩).2 =
      [OsCall.freeConsole, OsCall.attachConsole 4321,
       OsCall.writeInput (send_command_records "dir"), OsCall.freeConsole] ∧
    (rc_send_command (fun _ => Except.ok ()) (Except.ok ())
        ⟨some 4321, "dir", none⟩).2 ≠ [] := by
  refine ⟨by decide, by decide⟩

/-- C2 counterexample: with pid 4321 attached and last snapshot
`"x"`, a poll whose re-attach succeeds but whose read fails emits only
`Error "Read error: boom"` — no `Disconnected` — and leaves the worker
attached with its snapshot intact, contrary to the claim. -/
theorem read_failure_keeps_attached :
    (poll_step (fun _ => Except.ok ()) (Except.error "boom")
        ⟨some 4321, 500, 100, some "x"⟩).events =
      [WorkerMessage.error "Read error: boom"] ∧
    WorkerMessage.disconnected ∉
      (poll_step (fun _ => Except.ok ()) (Except.error "boom")
        ⟨some 4321, 500, 100, some "x"⟩).events ∧
    (poll_step (fun _ => Except.ok ()) (Except.error "boom")
        ⟨some 4321, 500, 100, some "x"⟩).state =
      ⟨some 4321, 500, 100, some "x"⟩ := by
  refine ⟨rfl, by decide, rfl⟩

/-- C2 (amended): during the poll, it is a failed re-attach that is
treated as loss of attachment — one `Disconnected`, state cleared to
detached, snapshot cleared; a failed read after a successful re-attach
only emits a `"Read error"` event and changes nothing. -/
theorem poll_read_failure_behavior :
    (∀ (raw : Nat → Except String Unit) (rd : Except String (List String))
       (st : WorkerState) (pid : Nat) (e : String),
       st.current_pid = some pid → raw pid = Except.error e →
       poll_step raw rd st =
         ⟨{ st with current_pid := none, last_output := none },
          [WorkerMessage.disconnected],
          [OsCall.freeConsole, OsCall.attachConsole pid]⟩) ∧
    (∀ (raw : Nat → Except String Unit) (e : String)
       (st : WorkerState) (pid : Nat),
       st.current_pid = some pid → raw pid = Except.ok () →
       poll_step raw (Except.error e) st =
         ⟨st, [WorkerMessage.error ("Read error: " ++ e)],
          [OsCall.freeConsole, OsCall.attachConsole pid,
           OsCall.readOutput st.lines, OsCall.freeConsole]⟩) := by
  constructor
  · intro raw rd st pid e h1 h2
    simp [poll_step, h1, attach_to_console, h2, detach_from_console]
  · intro raw e st pid h1 h2
    simp [poll_step, h1, attach_to_console, h2, detach_from_console]

/-- Witness for C2: both branches of `poll_read_failure_behavior`
applied at concrete inputs. -/
theorem poll_read_failure_behavior_witness :
    poll_step (fun _ => Except.error "gone") (Except.ok [])
        ⟨some 4321, 500, 100, some "x"⟩ =
      ⟨⟨none, 500, 100, none⟩, [WorkerMessage.disconnected],
       [OsCall.freeConsole, OsCall.attachConsole 4321]⟩ ∧
    poll_step (fun _ => Except.ok ()) (Except.error "boom")
        ⟨some 4321, 500, 100, some "x"⟩ =
      ⟨⟨some 4321, 500, 100, some "x"⟩,
       [WorkerMessage.error ("Read error: " ++ "boom")],
       [OsCall.freeConsole, OsCall.attachConsole 4321,
        OsCall.readOutput 100, OsCall.freeConsole]⟩ :=
  ⟨poll_read_failure_behavior.1 (fun _ => Except.error "gone") (Except.ok [])
      ⟨some 4321, 500, 100, some "x"⟩ 4321 "gone" rfl rfl,
   poll_read_failure_behavior.2 (fun _ => Except.ok ()) "boom"
      ⟨some 4321, 500, 100, some "x"⟩ 4321 rfl rfl⟩

/-- C3 counterexample: with two commands queued, one loop iteration
applies only the first and then polls — the read call happens while
`SetLines 5` is still queued — contrary to the claim that all queued
commands are drained before any poll. -/
theorem iteration_polls_with_commands_pending :
    (worker_iteration (fun _ => Except.ok ()) (Except.ok ["x"])
        [UiMessage.setInterval 100, UiMessage.setLines 5]
        ⟨some 4321, 500, 100, none⟩).queue = [UiMessage.setLines 5] ∧
    OsCall.readOutput 100 ∈
      (worker_iteration (fun _ => Except.ok ()) (Except.ok ["x"])
        [UiMessage.setInterval 100, UiMessage.setLines 5]
        ⟨some 4321, 500, 100, none⟩).calls := by
  refine ⟨rfl, by decide⟩

/-- C3 (amended): each loop iteration dequeues at most one command (the
oldest) before the poll; the rest of the queue is untouched — an
iteration on `m :: rest` behaves exactly like an iteration on `[m]`,
with `rest` left queued for later iterations. -/
theorem iteration_consumes_one_command :
    ∀ (raw : Nat → Except String Unit) (rd : Except String (List String))
      (q : List UiMessage) (st : WorkerState),
      (worker_iteration raw rd q st).queue = q.tail ∧
      (∀ m rest, q = m :: rest →
        worker_iteration raw rd q st =
          { worker_iteration raw rd [m] st with queue := rest }) := by
  intro raw rd q st
  constructor
  · cases q with
    | nil => cases h : (handle_message raw st RecvResult.empty).exit <;>
        simp [worker_iteration, h]
    | cons m rest => cases h : (handle_message raw st (RecvResult.msg m)).exit <;>
        simp [worker_iteration, h]
  · intro m rest hq
    subst hq
    cases h : (handle_message raw st (RecvResult.msg m)).exit <;>
      simp [worker_iteration, h]

/-- Witness for C3 (amended): an iteration on a two-element queue
equals the iteration on the head alone, with the second command still
queued. -/
theorem iteration_consumes_one_command_witness :
    worker_iteration (fun _ => Except.ok ()) (Except.ok [])
        [UiMessage.detach, UiMessage.stop] ⟨none, 500, 100, none⟩ =
      { worker_iteration (fun _ => Except.ok ()) (Except.ok [])
          [UiMessage.detach] ⟨none, 500, 100, none⟩ with
        queue := [UiMessage.stop] } :=
  (iteration_consumes_one_command (fun _ => Except.ok ()) (Except.ok [])
      [UiMessage.detach, UiMessage.stop] ⟨none, 500, 100, none⟩).2
    UiMessage.detach [UiMessage.stop] rfl

/-- C4 counterexample: the detector compares the newline-joined
strings, so the distinct sequences `["a\nb"]` and `["a", "b"]` are
judged unchanged: after a first poll reads `["a\nb"]`, a second poll
reading `["a", "b"]` emits no `Output` event, contrary to the claim
that any element-wise difference is detected. -/
theorem equal_join_not_detected :
    (poll_step (fun _ => Except.ok ()) (Except.ok ["a\nb"])
        ⟨some 4321, 500, 100, none⟩).events =
      [WorkerMessage.output ["a\nb"]] ∧
    (poll_step (fun _ => Except.ok ()) (Except.ok ["a", "b"])
        ((poll_step (fun _ => Except.ok ()) (Except.ok ["a\nb"])
            ⟨some 4321, 500, 100, none⟩).state)).events = [] ∧
    (["a\nb"] : List String) ≠ ["a", "b"] ∧
    spec_diff ["a\nb"] ["a", "b"] = true ∧
    lines_diff ["a\nb"] ["a", "b"] = false := by
  refine ⟨rfl, rfl, by decide, by decide, by decide⟩

/-- C4 (amended): the detector declares a snapshot changed exactly when
the newline-joins differ.  Hence `diff(L, L)` is false, a detected
change implies the sequences differ, and a second successful poll
reading the same lines as the previous one emits no further `Output`
event; but the converse direction of the claim (changed whenever the
sequences differ element-wise) does not hold. -/
theorem diff_joined_lines :
    (∀ L : List String, lines_diff L L = false) ∧
    (∀ L1 L2 : List String, lines_diff L1 L2 = true → L1 ≠ L2) ∧
    (∀ (raw : Nat → Except String Unit) (st : WorkerState) (pid : Nat)
       (L : List String),
       st.current_pid = some pid → raw pid = Except.ok () →
       (poll_step raw (Except.ok L)
          ((poll_step raw (Except.ok L) st).state)).events = []) := by
  refine ⟨?_, ?_, ?_⟩
  · intro L; simp [lines_diff]
  · intro L1 L2 h hne
    subst hne
    simp [lines_diff] at h
  · intro raw st pid L h1 h2
    have hfalse : output_changed (some (joined L)) L = false := by
      simp [output_changed]
    have hfst : (poll_step raw (Except.ok L) st).state.current_pid = some pid ∧
        (poll_step raw (Except.ok L) st).state.last_output = some (joined L) := by
      cases hc : output_changed st.last_output L with
      | true => simp [poll_step, h1, attach_to_console, h2, hc]
      | false =>
          have hlo : st.last_output = some (joined L) := by
            have := of_decide_eq_false hc
            simpa [output_changed] using this
          simp [poll_step, h1, attach_to_console, h2, hc, hlo, hfalse]
    obtain ⟨ha, hb⟩ := hfst
    generalize hgen : (poll_step raw (Except.ok L) st).state = s1 at ha hb ⊢
    simp [poll_step, ha, attach_to_console, h2, hb, hfalse]

/-- Witness for C4 (amended): two consecutive successful reads of
`["hello"]` produce no second `Output` event. -/
theorem diff_joined_lines_witness :
    (poll_step (fun _ => Except.ok ()) (Except.ok ["hello"])
        ((poll_step (fun _ => Except.ok ()) (Except.ok ["hello"])
            ⟨some 4321, 500, 100, none⟩).state)).events = [] :=
  diff_joined_lines.2.2 (fun _ => Except.ok ())
    ⟨some 4321, 500, 100, none⟩ 4321 ["hello"] rfl rfl

/-- C5: `read_console_lines` violates its requested maximum: with the
cursor on row 5, requesting 2 lines reads rows 3, 4 and 5 — three
lines, i.e. `n + 1` lines whenever `cursor_y ≥ n` (off-by-one in
`start_y`). -/
theorem read_console_lines_exceeds_request :
    (read_console_lines ⟨80, 5, fun _ => []⟩ 2).length = 3 ∧
    ¬ (read_console_lines ⟨80, 5, fun _ => []⟩ 2).length ≤ 2 := by
  refine ⟨rfl, by decide⟩

/-- C6 counterexample: a poll while attached does not invoke only the
read operation — its capability trace is FreeConsole, AttachConsole,
read, FreeConsole (it re-attaches and detaches every cycle). -/
theorem poll_reattaches_each_cycle :
    (poll_step (fun _ => Except.ok ()) (Except.ok ["a"])
        ⟨some 4321, 500, 100, none⟩).calls =
      [OsCall.freeConsole, OsCall.attachConsole 4321,
       OsCall.readOutput 100, OsCall.freeConsole] ∧
    (poll_step (fun _ => Except.ok ()) (Except.ok ["a"])
        ⟨some 4321, 500, 100, none⟩).calls ≠ [OsCall.readOutput 100] := by
  refine ⟨rfl, by decide⟩

/-- C6 (amended): while attached, each poll step performs
`attach_to_console` (FreeConsole then AttachConsole), one read of
`lines` rows, and a final FreeConsole; when the re-attach succeeds and
the read succeeds, the session stays attached to the same pid and the
cadence fields are unchanged. -/
theorem poll_trace_and_frame :
    ∀ (raw : Nat → Except String Unit) (rd : Except String (List String))
      (st : WorkerState) (pid : Nat),
      st.current_pid = some pid → raw pid = Except.ok () →
      (poll_step raw rd st).calls =
        [OsCall.freeConsole, OsCall.attachConsole pid,
         OsCall.readOutput st.lines, OsCall.freeConsole] ∧
      (∀ L, rd = Except.ok L →
        (poll_step raw rd st).state.current_pid = some pid ∧
        (poll_step raw rd st).state.interval = st.interval ∧
        (poll_step raw rd st).state.lines = st.lines) := by
  intro raw rd st pid h1 h2
  constructor
  · cases rd with
    | ok L =>
        cases hc : output_changed st.last_output L <;>
          simp [poll_step, h1, attach_to_console, h2, hc, detach_from_console]
    | error e => simp [poll_step, h1, attach_to_console, h2, detach_from_console]
  · intro L hL
    subst hL
    cases hc : output_changed st.last_output L <;>
      simp [poll_step, h1, attach_to_console, h2, hc]

/-- Witness for C6 (amended): the poll trace and the preserved
attachment at a concrete attached state. -/
theorem poll_trace_and_frame_witness :
    (poll_step (fun _ => Except.ok ()) (Except.ok ["x"])
        ⟨some 4321, 500, 100, none⟩).calls =
      [OsCall.freeConsole, OsCall.attachConsole 4321,
       OsCall.readOutput 100, OsCall.freeConsole] ∧
    (poll_step (fun _ => Except.ok ()) (Except.ok ["x"])
        ⟨some 4321, 500, 100, none⟩).state.current_pid = some 4321 :=
  ⟨(poll_trace_and_frame (fun _ => Except.ok ()) (Except.ok ["x"])
      ⟨some 4321, 500, 100, none⟩ 4321 rfl rfl).1,
   ((poll_trace_and_frame (fun _ => Except.ok ()) (Except.ok ["x"])
      ⟨some 4321, 500, 100, none⟩ 4321 rfl rfl).2 ["x"] rfl).1⟩

/-- C7: a text send (`RemoteConApp::send_command`) or control send
(`RemoteConApp::send_ctrl_c`) issued while detached performs no
capability call at all, reports the failure by setting `last_error`
to "Not attached to any console", and changes nothing else. -/
theorem send_while_detached_gated :
    ∀ (raw : Nat → Except String Unit) (w : Except String Unit)
      (st : AppSendState), st.attached_pid = none →
      rc_send_command raw w st =
        ({ st with last_error := some "Not attached to any console" }, []) ∧
      rc_send_ctrl_c raw w st =
        ({ st with last_error := some "Not attached to any console" }, []) := by
  intro raw w st h
  constructor <;> simp [rc_send_command, rc_send_ctrl_c, h]

/-- Witness for C7: both send paths at a concrete detached state. -/
theorem send_while_detached_gated_witness :
    rc_send_command (fun _ => Except.ok ()) (Except.ok ())
        ⟨none, "dir", none⟩ =
      (⟨none, "dir", some "Not attached to any console"⟩, []) ∧
    rc_send_ctrl_c (fun _ => Except.ok ()) (Except.ok ())
        ⟨none, "dir", none⟩ =
      (⟨none, "dir", some "Not attached to any console"⟩, []) :=
  send_while_detached_gated (fun _ => Except.ok ()) (Except.ok ())
    ⟨none, "dir", none⟩ rfl

/-- C8 counterexample: a closed command channel — every handle to the
worker dropped, so `try_recv` yields `Err(Disconnected)` — is absorbed
by the `Err(_) => {}` arm: the worker does not exit and its state is
untouched, contrary to the claim that the loop terminates when the
handle is fully dropped. -/
theorem worker_ignores_closed_channel :
    (handle_message (fun _ => Except.ok ()) ⟨some 4321, 500, 100, none⟩
        RecvResult.disconnected).exit = false ∧
    handle_message (fun _ => Except.ok ()) ⟨some 4321, 500, 100, none⟩
        RecvResult.disconnected =
      ⟨⟨some 4321, 500, 100, none⟩, [], [], false⟩ := by
  refine ⟨rfl, rfl⟩

/-- C8 (amended): the worker loop exits exactly on a received `Stop`
command — a dropped handle does not stop it — and on `Stop` while
attached it performs the capability detach (one FreeConsole) before
exiting. -/
theorem worker_exit_only_on_stop :
    (∀ (raw : Nat → Except String Unit) (st : WorkerState) (r : RecvResult),
       (handle_message raw st r).exit = true ↔
         r = RecvResult.msg UiMessage.stop) ∧
    (∀ (raw : Nat → Except String Unit) (st : WorkerState),
       st.current_pid.isSome = true →
       (handle_message raw st (RecvResult.msg UiMessage.stop)).calls =
         [OsCall.freeConsole]) := by
  constructor
  · intro raw st r
    cases r with
    | msg m =>
        cases m with
        | attach pid =>
            cases hA : attach_to_console raw pid with
            | mk res calls => cases res <;> simp [handle_message, hA]
        | detach =>
            cases h : st.current_pid.isSome <;> simp [handle_message, h]
        | setInterval d => simp [handle_message]
        | setLines n => simp [handle_message]
        | stop => simp [handle_message]
    | empty => simp [handle_message]
    | disconnected => simp [handle_message]
  · intro raw st h
    simp [handle_message, h, detach_from_console]

/-- Witness for C8 (amended): `Stop` at a concrete attached state exits
after one FreeConsole. -/
theorem worker_exit_only_on_stop_witness :
    (handle_message (fun _ => Except.ok ()) ⟨some 9, 500, 100, none⟩
        (RecvResult.msg UiMessage.stop)).calls = [OsCall.freeConsole] ∧
    (handle_message (fun _ => Except.ok ()) ⟨some 9, 500, 100, none⟩
        (RecvResult.msg UiMessage.stop)).exit = true :=
  ⟨worker_exit_only_on_stop.2 (fun _ => Except.ok ())
      ⟨some 9, 500, 100, none⟩ rfl,
   (worker_exit_only_on_stop.1 (fun _ => Except.ok ())
      ⟨some 9, 500, 100, none⟩ (RecvResult.msg UiMessage.stop)).mpr rfl⟩

/-- C9: `attach_to_console(pid)` always performs an unconditional
`FreeConsole` before `AttachConsole(pid)`; consequently, from any
prior binding, when it returns an error the process is left with no
console binding — the old binding has already been dropped. -/
theorem attach_frees_old_binding_first :
    ∀ (raw : Nat → Except String Unit) (pid : Nat) (b : Option Nat),
      (attach_to_console raw pid).2 =
        [OsCall.freeConsole, OsCall.attachConsole pid] ∧
      (∀ e, (attach_to_console raw pid).1 = Except.error e →
        binding_after raw b (attach_to_console raw pid).2 = none) := by
  intro raw pid b
  refine ⟨attach_to_console_calls raw pid, ?_⟩
  intro e he
  cases h : raw pid with
  | ok u => exact absurd he (by simp [attach_to_console, h])
  | error msg => simp [attach_to_console, h, binding_after]

/-- Witness for C9: a failing attach from prior binding `some 7` leaves
no binding. -/
theorem attach_frees_old_binding_first_witness :
    binding_after (fun _ => Except.error "denied") (some 7)
        (attach_to_console (fun _ => Except.error "denied") 4321).2 = none :=
  (attach_frees_old_binding_first (fun _ => Except.error "denied") 4321 (some 7)).2
    ("Failed to attach to console PID " ++ toString 4321 ++ ": " ++ "denied")
    (by rfl)

/-- C10: for a command of `k` characters, `send_command` writes exactly
`2 * k + 2` key input records: a key-down and key-up per character in
order, then a key-down/key-up pair for carriage return — Enter is
pressed even when the command contains no newline. -/
theorem send_command_writes_2k_plus_2 :
    ∀ command : String,
      (send_command_records command).length = 2 * command.data.length + 2 ∧
      (send_command_records command).drop (2 * command.data.length) =
        [create_key_event '\r' true, create_key_event '\r' false] ∧
      (∀ (i : Nat) (ch : Char), command.data.get? i = some ch →
        (send_command_records command).get? (2 * i) =
          some (create_key_event ch true) ∧
        (send_command_records command).get? (2 * i + 1) =
          some (create_key_event ch false)) := by
  intro command
  refine ⟨?_, ?_, ?_⟩
  · simp [send_command_records, build_input_records_length]
  · rw [send_command_records, ← build_input_records_length command.data,
        List.drop_left]
  · intro i ch h
    have hb := build_input_records_get command.data i ch h
    have hi : i < command.data.length := by
      by_contra hlt
      rw [List.get?_eq_none.2 (by omega)] at h
      exact Option.noConfusion h
    have hlen : 2 * i + 1 < (build_input_records command.data).length := by
      rw [build_input_records_length]; omega
    constructor
    · rw [send_command_records, List.get?_append (by omega), hb.1]
    · rw [send_command_records, List.get?_append hlen, hb.2]

/-- Witness for C10: the first two records written for `"ab"` are the
down and up events of `'a'`. -/
theorem send_command_writes_2k_plus_2_witness :
    (send_command_records "ab").get? 0 = some (create_key_event 'a' true) ∧
    (send_command_records "ab").get? 1 = some (create_key_event 'a' false) :=
  (send_command_writes_2k_plus_2 "ab").2.2 0 'a' (by decide)

end RemoteCon
